import Mathlib

/-!
Verification development for the Pressbooks Math Converter repository.

The repository has two source files:
* `src/services/geminiService.ts` — the conversion orchestrator
  (`convertToPressbooks`), its static instruction payload
  (`SYSTEM_INSTRUCTION`), and the result-coercion code.
* `src/App.tsx` — the UI handlers (`handleConvert`, `handleFetchUrl`,
  `downloadMarkdown`, `downloadPDF`, `extractTextFromPDF`,
  `extractTextFromDocx`) and an express route (`/api/fetch-url`).

External capabilities (the Gemini SDK call, `JSON.parse`, `fetch`,
`jsPDF.splitTextToSize`) are modelled as explicit function parameters; the
code of this repository is translated directly.  JavaScript `x || d` on
string-typed values (falsy exactly on the empty string / `undefined`) is
modelled by `jsOrElse`.
-/

namespace Pressbooks

/-- The `ConversionError` interface of geminiService.ts (lines 34-38):
per-snippet diagnostic records. -/
structure ConversionError where
  snippet : String
  message : String
  suggestion : String
deriving DecidableEq

/-- The `ConversionResult` interface of geminiService.ts (lines 40-44).
`errors` is an optional field (`errors?: ConversionError[]`), so it is an
`Option` here; `none` models an absent field. -/
structure ConversionResult where
  convertedContent : String
  summary : String
  errors : Option (List ConversionError)
deriving DecidableEq

/-- The value produced by `JSON.parse` on the textual payload of the capability,
viewed through the fields the code reads (geminiService.ts lines 78-83).
Every field may be absent (`undefined` in JavaScript). -/
structure Candidate where
  convertedContent : Option String
  summary : Option String
  errors : Option (List ConversionError)
deriving DecidableEq

/-- JavaScript `x || d` for a string-typed `x` that may be `undefined`:
the result is `d` exactly when `x` is `undefined` or the empty string
(the only falsy string). -/
def jsOrElse : Option String → String → String
  | none, d => d
  | some s, d => if s = "" then d else s

/-- The result-coercion expression returned by `convertToPressbooks`
(geminiService.ts lines 79-83): `convertedContent: result.convertedContent
|| ""`, `summary: result.summary || ""`, `errors: result.errors`. -/
def coerceResult (c : Candidate) : ConversionResult :=
  { convertedContent := jsOrElse c.convertedContent ""
  , summary := jsOrElse c.summary ""
  , errors := c.errors }

/-- How App.tsx consumes `result.errors` (line 439: `result.errors &&
result.errors.length > 0 && ...`): an absent field is displayed exactly
like an empty list — no issue entries and no error condition. -/
def displayedErrors (r : ConversionResult) : List ConversionError :=
  match r.errors with
  | none => []
  | some es => es

/-- The `SYSTEM_INSTRUCTION` template literal of geminiService.ts
(lines 3-32), with JavaScript escape semantics applied: `\\(` renders as
a backslash-parenthesis, `\\frac` as `\frac`; the single-backslash `\sum`
on line 20 renders as `sum` (`\s` is a JavaScript non-escape character)
and the single-backslash `\frac` on line 21 renders as a form feed
followed by `rac` (`\f` is the form-feed escape). -/
def SYSTEM_INSTRUCTION : String := String.intercalate "\n" [
  "You are an expert math typesetting converter specializing in migrating MathJax equations from any source format into Pressbooks-compatible math markup. Your sole purpose is to produce error-free, correctly rendered math output for Pressbooks.",
  "",
  "## Pressbooks Math Rendering Rules",
  "Pressbooks renders math using MathJax via specific shortcode delimiters:",
  "- Inline math: wrap LaTeX in [latex]...[/latex] shortcodes",
  "- Display (block) math: wrap LaTeX in [latex display=\"true\"]...[/latex] shortcodes",
  "- Do NOT use $...$, $$...$$, \\(...\\), or \\[...\\] delimiters.",
  "",
  "## Conversion Rules",
  "1. Delimiter conversion: Replace all math delimiters with Pressbooks shortcodes.",
  "2. LaTeX integrity: Never alter the LaTeX content inside delimiters unless it is malformed.",
  "3. Escape characters: Ensure backslashes are not double-escaped or stripped. Use single backslashes (e.g., \\frac).",
  "4. HTML entities: Decode any HTML-encoded characters inside math blocks (e.g., &lt; -> <).",
  "5. MathJax HTML artifacts: Extract original LaTeX source from data-mjx-texclass, data-tex, aria-label, or <script type=\"math/tex\"> tags.",
  "6. Images of equations: If an equation is an image with no LaTeX source, flag it with <!-- TODO: Manual equation needed here -->.",
  "7. AsciiMath: Identify AsciiMath notation (often wrapped in backticks `...` or sometimes tildes ~...~). Convert the AsciiMath syntax into its LaTeX equivalent before wrapping it in the Pressbooks [latex] shortcode.",
  "   - Example: `x^2 + y^2 = r^2` becomes [latex]x^2 + y^2 = r^2[/latex]",
  "   - Example: `sum_(i=1)^n i` becomes [latex]sum_\x7bi=1\x7d^n i[/latex]",
  "   - Example: `frac(a)(b)` becomes [latex]\x0Crac\x7ba\x7d\x7bb\x7d[/latex]",
  "8. Unsupported commands: Flag unsupported commands with <!-- WARNING: \\commandname may not render -->.",
  "9. Nested or broken delimiters: Fix mismatched or nested delimiters.",
  "10. Context preservation: Maintain all surrounding HTML, text, and Pressbooks content verbatim.",
  "",
  "## Output Format",
  "- Return the fully converted content ready to paste into Pressbooks.",
  "- Provide a Conversion Summary at the end:",
  "  - Total equations converted",
  "  - Number of inline vs. display equations",
  "  - Warnings, flags, or manual review items",
  "  - Assumptions made during conversion"]

/-- The error-reporting addendum appended to the system instruction at the
call site (geminiService.ts line 53). -/
def ERROR_REPORTING_ADDENDUM : String :=
  "\n\n## Error Reporting\nIf you encounter malformed LaTeX or AsciiMath that cannot be safely converted, populate the \x27errors\x27 field with the problematic snippet, a description of why it is malformed, and a suggestion for how to fix it."

/-- The forbidden-delimiter rule sentence of the system instruction
(geminiService.ts line 9, after JavaScript escape processing). -/
def FORBIDDEN_RULE : String :=
  "Do NOT use $...$, $$...$$, \\(...\\), or \\[...\\] delimiters."

/-- The request `convertToPressbooks` passes to
`ai.models.generateContent` (geminiService.ts lines 49-76), restricted to
the fields the claims are about. -/
structure GenRequest where
  model : String
  contents : String
  systemInstruction : String
  responseMimeType : String
deriving DecidableEq

/-- Construction of the request from the input (geminiService.ts
lines 49-54). -/
def buildRequest (input : String) : GenRequest :=
  { model := "gemini-3.1-pro-preview"
  , contents := input
  , systemInstruction := SYSTEM_INSTRUCTION ++ ERROR_REPORTING_ADDENDUM
  , responseMimeType := "application/json" }

/-- Behaviour of one call to the external transformation capability:
either `generateContent` throws (the capability is unreachable), or it
returns a response whose `.text` may be absent. -/
inductive ExtBehavior where
  | unreachable (msg : String)
  | responds (text : Option String)
deriving DecidableEq

/-- Outcome of one call to `convertToPressbooks`: a returned
`ConversionResult`, the propagated exception from an unreachable
capability, or the propagated `SyntaxError` from `JSON.parse`. -/
inductive ConvOutcome where
  | ok (result : ConversionResult)
  | transformationError (msg : String)
  | parseError (msg : String)
deriving DecidableEq

/-- The orchestrator `convertToPressbooks` (geminiService.ts lines 46-84).
`ext` is the external capability: `ext n req` is the behaviour of the
`n`-th `generateContent` call made with request `req` (the source makes
exactly one, at index 0, and the returned `Nat` counts the calls made).
`parse` is the external `JSON.parse`, which either throws (with some
engine-chosen message) or yields a parsed candidate.  The source parses
`response.text || "\x7b\x7d"` and coerces the parsed value. -/
def convertToPressbooks (parse : String → Except String Candidate)
    (ext : Nat → GenRequest → ExtBehavior) (input : String) :
    ConvOutcome × Nat :=
  match ext 0 (buildRequest input) with
  | ExtBehavior.unreachable msg => (ConvOutcome.transformationError msg, 1)
  | ExtBehavior.responds text =>
      match parse (jsOrElse text "\x7b\x7d") with
      | Except.error e => (ConvOutcome.parseError e, 1)
      | Except.ok c => (ConvOutcome.ok (coerceResult c), 1)

/-- The `activeTab` UI state of App.tsx (line 42). -/
inductive Tab where
  | text
  | file
  | url
deriving DecidableEq

/-- The React state of `App` (App.tsx lines 36-42). -/
structure AppState where
  input : String
  url : String
  result : Option ConversionResult
  isLoading : Bool
  error : Option String
  copied : Bool
  activeTab : Tab
deriving DecidableEq

/-- JavaScript `String.prototype.trim` whitespace test, restricted to the
ASCII whitespace characters (space, tab, line feed, carriage return,
vertical tab, form feed); the handlers only test whether the trimmed
input is empty. -/
def jsWhitespace (c : Char) : Bool :=
  c == '\x20' || c == '\t' || c == '\n' || c == '\r' || c == '\x0b' || c == '\x0c'

/-- JavaScript `s.trim()`: drop leading and trailing whitespace. -/
def jsTrim (s : String) : String :=
  String.mk (((s.data.dropWhile jsWhitespace).reverse.dropWhile jsWhitespace).reverse)

/-- The `handleConvert` handler (App.tsx lines 128-140).  It returns the
state after the handler has run to completion together with the number of
`generateContent` calls made.  If the trimmed input is empty it returns
immediately (no call, no state change).  Otherwise it runs
`convertToPressbooks`: on success it stores the result and clears the
error; on a propagated exception it stores the exception message
(`setError(err.message)`) and leaves `result` untouched; `setIsLoading`
runs in `finally` on both paths. -/
def handleConvert (parse : String → Except String Candidate)
    (ext : Nat → GenRequest → ExtBehavior) (s : AppState) : AppState × Nat :=
  if jsTrim s.input = "" then (s, 0)
  else
    match convertToPressbooks parse ext s.input with
    | (ConvOutcome.ok r, n) =>
        ({ s with result := some r, error := none, isLoading := false }, n)
    | (ConvOutcome.transformationError msg, n) =>
        ({ s with error := some msg, isLoading := false }, n)
    | (ConvOutcome.parseError msg, n) =>
        ({ s with error := some msg, isLoading := false }, n)

/-- A file produced by an export adapter: a download name and the exact
character content handed to the `Blob`. -/
structure MarkdownFile where
  name : String
  content : String
deriving DecidableEq

/-- The `downloadMarkdown` handler (App.tsx lines 155-166): if no result
is stored it does nothing; otherwise it serializes
`result.convertedContent` (the single `Blob` part) under the name
`pressbook-chapter.md`.  The pair returned is the state after the handler
(no `set*` call occurs in the source) and the emitted file. -/
def downloadMarkdown (s : AppState) : AppState × Option MarkdownFile :=
  match s.result with
  | none => (s, none)
  | some r => (s, some ⟨"pressbook-chapter.md", r.convertedContent⟩)

/-- Fixed margin of `downloadPDF` (App.tsx line 171), in millimetres. -/
def pdfMargin : Nat := 10

/-- Page width of the default jsPDF document (A4 portrait, millimetre
units), as returned by `doc.internal.pageSize.getWidth()` (App.tsx
line 172).  jsPDF reports 210.0016 mm; the comparisons the code makes
never fall between 210 and 210.0016, so the integer value is used. -/
def pdfPageWidth : Nat := 210

/-- Page height of the default jsPDF document (A4 portrait), as returned
by `doc.internal.pageSize.getHeight()` (App.tsx line 173).  jsPDF reports
297.0001 mm; the cursor positions compared against `pageHeight - margin`
are multiples of 7 offset by 10, never between 287 and 287.0001, so the
integer value is used. -/
def pdfPageHeight : Nat := 297

/-- `maxLineWidth = pageWidth - margin * 2` (App.tsx line 174). -/
def pdfMaxLineWidth : Nat := pdfPageWidth - pdfMargin * 2

/-- The fixed per-line advance `cursorY += 7` (App.tsx line 185). -/
def pdfLineHeight : Nat := 7

/-- One line as placed by `doc.text(line, margin, cursorY)` (App.tsx
line 184). -/
structure PdfLine where
  text : String
  x : Nat
  y : Nat
deriving DecidableEq

/-- The body of the `lines.forEach` loop of `downloadPDF` (App.tsx
lines 179-186).  The accumulator is (completed pages, current page,
cursorY): if the cursor exceeds `pageHeight - margin` the code calls
`doc.addPage()` and resets the cursor to the margin before placing the
line; in both cases the line is placed at the cursor and the cursor
advances by the fixed line height. -/
def pdfPlace (acc : List (List PdfLine) × List PdfLine × Nat) (line : String) :
    List (List PdfLine) × List PdfLine × Nat :=
  match acc with
  | (done, cur, cursorY) =>
    if cursorY > pdfPageHeight - pdfMargin then
      (done ++ [cur], [⟨line, pdfMargin, pdfMargin⟩], pdfMargin + pdfLineHeight)
    else
      (done, cur ++ [⟨line, pdfMargin, cursorY⟩], cursorY + pdfLineHeight)

/-- The pagination loop of `downloadPDF` (App.tsx lines 176-186): a new
jsPDF document starts with one page and the cursor at the margin; the
final document is the completed pages followed by the page in progress. -/
def renderPdfLines (lines : List String) : List (List PdfLine) :=
  (lines.foldl pdfPlace ([], [], pdfMargin)).1 ++
    [(lines.foldl pdfPlace ([], [], pdfMargin)).2.1]

/-- The `downloadPDF` handler (App.tsx lines 168-189): with no stored
result it does nothing; otherwise the content is wrapped by the external
`doc.splitTextToSize` (modelled by `split`, called with the fixed
`pdfMaxLineWidth`) and the resulting lines are paginated. -/
def downloadPDF (split : String → Nat → List String) (s : AppState) :
    Option (List (List PdfLine)) :=
  match s.result with
  | none => none
  | some r => some (renderPdfLines (split r.convertedContent pdfMaxLineWidth))

/-- The `extractTextFromPDF` loop (App.tsx lines 44-56).  A readable PDF
source is modelled as its pages in document order, each page being the
list of `item.str` strings of its text content.  The loop joins each
items of each page with single spaces and appends a newline, accumulating into
`fullText`. -/
def extractTextFromPDF (pages : List (List String)) : String :=
  pages.foldl (fun fullText page => fullText ++ (String.intercalate " " page ++ "\n")) ""

/-- Modelled from the spec and the wording of claim C7: the declarative
description of the ingestion normalizer for PDF sources — the
concatenation, in page order from the first page to the last, of the
text items of each page joined by single spaces with a newline appended
after each page. -/
def pdfTextSpec : List (List String) → String
  | [] => ""
  | page :: rest => String.intercalate " " page ++ "\n" ++ pdfTextSpec rest

/-- Behaviour of the server-side `fetch(url)` call in the `/api/fetch-url`
route (App.tsx line 552): a network failure (the promise rejects), or a
response with its `ok` flag, `statusText` and body text. -/
inductive UpstreamResult where
  | netFail (msg : String)
  | resp (ok : Bool) (statusText : String) (body : String)
deriving DecidableEq

/-- Body of a response of the `/api/fetch-url` route: a JSON error object
(`res.json(\x7b error \x7d)`) or the fetched content (`res.send(html)`). -/
inductive RouteBody where
  | jsonError (msg : String)
  | content (html : String)
deriving DecidableEq

/-- A response of the `/api/fetch-url` route: HTTP status and body. -/
structure RouteResponse where
  status : Nat
  body : RouteBody
deriving DecidableEq

/-- The `/api/fetch-url` express route (App.tsx lines 545-562): a missing
or empty `url` query parameter is rejected with 400; an upstream network
failure or non-ok upstream status is reported as 500 with a JSON error
(the non-ok case throws `Failed to fetch URL: statusText` into the catch
block); otherwise the fetched body is sent with the default 200 status. -/
def fetchUrlRoute (upstream : String → UpstreamResult)
    (urlParam : Option String) : RouteResponse :=
  match urlParam with
  | none => ⟨400, RouteBody.jsonError "URL is required"⟩
  | some url =>
      if url = "" then ⟨400, RouteBody.jsonError "URL is required"⟩
      else
        match upstream url with
        | UpstreamResult.netFail msg => ⟨500, RouteBody.jsonError msg⟩
        | UpstreamResult.resp ok statusText body =>
            if ok then ⟨200, RouteBody.content body⟩
            else ⟨500, RouteBody.jsonError ("Failed to fetch URL: " ++ statusText)⟩

/-- Behaviour of one client-side `fetch` of `/api/fetch-url` (App.tsx
line 112): a network failure, or a response carrying its `ok` flag, the
outcome of `response.json()` on the error path (`Except.error` when the
body is not JSON, otherwise the optional `error` field), and the body
text. -/
inductive ClientFetchOutcome where
  | netFail (msg : String)
  | resp (ok : Bool) (errJson : Except String (Option String)) (text : String)

/-- The `handleFetchUrl` handler (App.tsx lines 107-126), returning the
completed state and the number of `fetch` calls made.  An empty `url`
returns immediately.  On a non-ok response the code reads the JSON error
body and throws `data.error || \x27Failed to fetch URL\x27`; every thrown
error lands in the catch block as `setError(err.message)`.  On success the
body becomes the input, the active tab switches to text and the url field
is cleared. -/
def handleFetchUrl (transport : Nat → String → ClientFetchOutcome)
    (s : AppState) : AppState × Nat :=
  if s.url = "" then (s, 0)
  else
    match transport 0 s.url with
    | ClientFetchOutcome.netFail msg =>
        ({ s with error := some msg, isLoading := false }, 1)
    | ClientFetchOutcome.resp ok errJson text =>
        if ok then
          ({ s with
              input := text
              activeTab := Tab.text
              url := ""
              error := none
              isLoading := false }, 1)
        else
          match errJson with
          | Except.error m => ({ s with error := some m, isLoading := false }, 1)
          | Except.ok field =>
              ({ s with error := some (jsOrElse field "Failed to fetch URL"), isLoading := false }, 1)

/-- Whether the second character list starts with the first. -/
def leadsWith : List Char → List Char → Bool
  | [], _ => true
  | _ :: _, [] => false
  | p :: ps, c :: cs => p == c && leadsWith ps cs

/-- Whether the first character list occurs contiguously inside the
second. -/
def occursWithin (pat : List Char) : List Char → Bool
  | [] => leadsWith pat []
  | c :: cs => leadsWith pat (c :: cs) || occursWithin pat cs

/-- Whether `pat` occurs as a contiguous substring of `s`. -/
def strOccurs (pat s : String) : Bool := occursWithin pat.data s.data

/-- A finite instance of the external `JSON.parse` behaviour, accurate at
every input this development evaluates it on: the text `\x7b\x7d` parses
to the empty object (no fields present), the listed JSON object parses to
the corresponding candidate, and a payload such as `not json` throws a
`SyntaxError`. -/
def demoParse (s : String) : Except String Candidate :=
  if s = "\x7b\x7d" then Except.ok ⟨none, none, none⟩
  else if s = "\x7b\x22convertedContent\x22:\x22$x$\x22,\x22summary\x22:\x22done\x22\x7d" then
    Except.ok ⟨some "$x$", some "done", none⟩
  else Except.error "Unexpected token"

/-- An external capability whose response carries no text
(`response.text` is `undefined`). -/
def demoExtNoText : Nat → GenRequest → ExtBehavior :=
  fun _ _ => ExtBehavior.responds none

/-- An external capability whose textual response is not parseable as
JSON. -/
def demoExtBad : Nat → GenRequest → ExtBehavior :=
  fun _ _ => ExtBehavior.responds (some "not json")

/-- An unreachable external capability: `generateContent` rejects. -/
def demoExtDown : Nat → GenRequest → ExtBehavior :=
  fun _ _ => ExtBehavior.unreachable "service unreachable"

/-- An external capability that answers with a schema-conforming JSON
object whose `convertedContent` still contains dollar-sign delimiters. -/
def demoExtDollar : Nat → GenRequest → ExtBehavior :=
  fun _ _ =>
    ExtBehavior.responds
      (some "\x7b\x22convertedContent\x22:\x22$x$\x22,\x22summary\x22:\x22done\x22\x7d")

/-- A stored conversion result used to evaluate the export adapters. -/
def demoConvResult : ConversionResult := ⟨"hello world", "one equation", none⟩

/-- A concrete app state with a stored result and a non-empty input. -/
def demoResultState : AppState :=
  { input := "x", url := "", result := some demoConvResult, isLoading := false
  , error := none, copied := false, activeTab := Tab.text }

/-- A concrete app state whose input is whitespace only. -/
def demoBlankState : AppState :=
  { input := "  ", url := "", result := none, isLoading := false
  , error := none, copied := false, activeTab := Tab.text }

/-- A concrete app state with a url set, for the fetch handler. -/
def demoUrlState : AppState :=
  { input := "keep", url := "http://e", result := none, isLoading := false
  , error := none, copied := false, activeTab := Tab.url }

/-- A concrete upstream transport whose fetch always fails at the network
level. -/
def demoUpstreamFail : String → UpstreamResult :=
  fun _ => UpstreamResult.netFail "net down"

/-- A concrete client transport whose fetch always fails at the network
level. -/
def demoTransportFail : Nat → String → ClientFetchOutcome :=
  fun _ _ => ClientFetchOutcome.netFail "net down"

/-- A concrete line-wrapping function standing in for the external
`doc.splitTextToSize`. -/
def demoSplit : String → Nat → List String := fun c _ => [c]

/-- C1 (counterexample): the textual response `not json` cannot be parsed
as structured data, yet `convertToPressbooks` does not fall back to the
empty-result shape: the `JSON.parse` exception propagates, because the
`response.text || "\x7b\x7d"` fallback only replaces an absent or empty
payload, not an unparseable one. -/
theorem claim1_counter :
    (convertToPressbooks demoParse demoExtBad "input").1 =
      ConvOutcome.parseError "Unexpected token" ∧
    (convertToPressbooks demoParse demoExtBad "input").1 ≠
      ConvOutcome.ok ⟨"", "", none⟩ :=
  ⟨by decide, by decide⟩

/-- C1 (amended): when the response text is absent or empty, `convert`
falls back to parsing `\x7b\x7d` and returns the empty-result shape; when
the text is non-empty and unparseable the parse exception propagates; an
unreachable capability yields the transformation error. -/
theorem claim1_amended (parse : String → Except String Candidate)
    (ext : Nat → GenRequest → ExtBehavior) (input : String)
    (hparse : parse "\x7b\x7d" = Except.ok ⟨none, none, none⟩) :
    ((ext 0 (buildRequest input) = ExtBehavior.responds none ∨
        ext 0 (buildRequest input) = ExtBehavior.responds (some "")) →
      (convertToPressbooks parse ext input).1 = ConvOutcome.ok ⟨"", "", none⟩) ∧
    (∀ t e, t ≠ "" → ext 0 (buildRequest input) = ExtBehavior.responds (some t) →
      parse t = Except.error e →
      (convertToPressbooks parse ext input).1 = ConvOutcome.parseError e) ∧
    (∀ msg, ext 0 (buildRequest input) = ExtBehavior.unreachable msg →
      (convertToPressbooks parse ext input).1 = ConvOutcome.transformationError msg) := by
  refine ⟨?_, ?_, ?_⟩
  · rintro (h | h) <;>
      simp [convertToPressbooks, h, jsOrElse, hparse, coerceResult]
  · intro t e ht hext hp
    simp [convertToPressbooks, hext, jsOrElse, ht, hp]
  · intro msg hext
    simp [convertToPressbooks, hext]

/-- C1 (witness): the amended theorem evaluated at a capability whose
response carries no text. -/
theorem claim1_w :
    demoParse "\x7b\x7d" = Except.ok ⟨none, none, none⟩ ∧
    (convertToPressbooks demoParse demoExtNoText "doc").1 = ConvOutcome.ok ⟨"", "", none⟩ :=
  ⟨rfl, (claim1_amended demoParse demoExtNoText "doc" rfl).1 (Or.inl rfl)⟩

/-- C2: the result coercion defaults a missing `convertedContent` to the
empty string, a missing `summary` to the empty string, and a missing
`errors` field is displayed as an empty sequence of issues rather than an
error condition. -/
theorem claim2 (c : Candidate) :
    (c.convertedContent = none → (coerceResult c).convertedContent = "") ∧
    (c.summary = none → (coerceResult c).summary = "") ∧
    (c.errors = none → displayedErrors (coerceResult c) = []) := by
  refine ⟨fun h => ?_, fun h => ?_, fun h => ?_⟩ <;>
    simp [coerceResult, displayedErrors, jsOrElse, h]

/-- C2 (witness): the coercion evaluated at the candidate with all three
fields missing. -/
theorem claim2_w :
    (Candidate.mk none none none).convertedContent = none ∧
    (coerceResult ⟨none, none, none⟩).convertedContent = "" ∧
    (coerceResult ⟨none, none, none⟩).summary = "" ∧
    displayedErrors (coerceResult ⟨none, none, none⟩) = [] :=
  ⟨rfl, (claim2 ⟨none, none, none⟩).1 rfl, (claim2 ⟨none, none, none⟩).2.1 rfl,
    (claim2 ⟨none, none, none⟩).2.2 rfl⟩

/-- C3: one call to `convertToPressbooks` makes exactly one call to the
external capability on every path, including both failure paths, and its
outcome depends only on that single first call. -/
theorem claim3 (parse : String → Except String Candidate)
    (ext ext' : Nat → GenRequest → ExtBehavior) (input : String) :
    (convertToPressbooks parse ext input).2 = 1 ∧
    (ext 0 = ext' 0 →
      convertToPressbooks parse ext input = convertToPressbooks parse ext' input) := by
  constructor
  · cases hext : ext 0 (buildRequest input) with
    | unreachable m => simp [convertToPressbooks, hext]
    | responds t =>
        cases hp : parse (jsOrElse t "\x7b\x7d") <;> simp [convertToPressbooks, hext, hp]
  · intro h
    simp [convertToPressbooks, h]

/-- C3 (witness): the call-count theorem evaluated at a concrete
capability. -/
theorem claim3_w :
    (convertToPressbooks demoParse demoExtNoText "doc").2 = 1 ∧
    convertToPressbooks demoParse demoExtNoText "doc" =
      convertToPressbooks demoParse demoExtNoText "doc" :=
  ⟨(claim3 demoParse demoExtNoText demoExtNoText "doc").1,
    (claim3 demoParse demoExtNoText demoExtNoText "doc").2 rfl⟩

/-- C4: when `convertToPressbooks` fails with a transformation error, the
completed `handleConvert` leaves the input, the stored result and the url
unchanged, and running the handler again from the reached state (a retry
with the same input) reproduces exactly the same state and the same
single external call — no additional side effects. -/
theorem claim4 (parse : String → Except String Candidate)
    (ext : Nat → GenRequest → ExtBehavior) (s : AppState) (msg : String)
    (h : (convertToPressbooks parse ext s.input).1 = ConvOutcome.transformationError msg) :
    (handleConvert parse ext s).1.input = s.input ∧
    (handleConvert parse ext s).1.result = s.result ∧
    (handleConvert parse ext s).1.url = s.url ∧
    handleConvert parse ext (handleConvert parse ext s).1 = handleConvert parse ext s := by
  by_cases ht : jsTrim s.input = ""
  · simp [handleConvert, ht]
  · cases hc : convertToPressbooks parse ext s.input with
    | mk o n =>
        rw [hc] at h
        simp only at h
        subst h
        refine ⟨?_, ?_, ?_, ?_⟩ <;> simp [handleConvert, ht, hc]

/-- C4 (witness): the retry theorem evaluated at an unreachable
capability and a concrete state. -/
theorem claim4_w :
    (convertToPressbooks demoParse demoExtDown demoResultState.input).1 =
      ConvOutcome.transformationError "service unreachable" ∧
    ((handleConvert demoParse demoExtDown demoResultState).1.input = demoResultState.input ∧
      (handleConvert demoParse demoExtDown demoResultState).1.result = demoResultState.result ∧
      (handleConvert demoParse demoExtDown demoResultState).1.url = demoResultState.url ∧
      handleConvert demoParse demoExtDown
          (handleConvert demoParse demoExtDown demoResultState).1 =
        handleConvert demoParse demoExtDown demoResultState) :=
  ⟨by decide,
    claim4 demoParse demoExtDown demoResultState "service unreachable" (by decide)⟩

/-- C5: with a stored result, the Markdown export emits exactly the
characters of `result.convertedContent` under the fixed file name, and
the application state (in particular the stored result) is unchanged. -/
theorem claim5 (s : AppState) (r : ConversionResult) (h : s.result = some r) :
    (downloadMarkdown s).2 = some ⟨"pressbook-chapter.md", r.convertedContent⟩ ∧
    (downloadMarkdown s).1 = s := by
  simp [downloadMarkdown, h]

/-- C5 (witness): the Markdown export evaluated at a concrete stored
result. -/
theorem claim5_w :
    demoResultState.result = some demoConvResult ∧
    ((downloadMarkdown demoResultState).2 =
        some ⟨"pressbook-chapter.md", demoConvResult.convertedContent⟩ ∧
      (downloadMarkdown demoResultState).1 = demoResultState) :=
  ⟨rfl, claim5 demoResultState demoConvResult rfl⟩

/-- The PDF extraction loop with an arbitrary starting accumulator equals
the accumulator followed by the declarative page concatenation. -/
theorem pdfText_foldl (pages : List (List String)) :
    ∀ acc : String,
      pages.foldl (fun fullText page => fullText ++ (String.intercalate " " page ++ "\n")) acc
        = acc ++ pdfTextSpec pages := by
  induction pages with
  | nil => intro acc; simp [pdfTextSpec]
  | cons page rest ih =>
      intro acc
      simp [List.foldl, pdfTextSpec, ih, String.append_assoc]

/-- C7: the PDF ingestion normalizer produces exactly the concatenation,
in page order, of the text items of each page joined by single spaces with a
newline appended after each page — a pure, content-agnostic
concatenation. -/
theorem claim7 (pages : List (List String)) :
    extractTextFromPDF pages = pdfTextSpec pages := by
  simpa [extractTextFromPDF] using pdfText_foldl pages ""

/-- C8: a non-success upstream status or a network failure makes the
`/api/fetch-url` route answer with a 500 JSON error, never a content
result, and makes the completed `handleFetchUrl` surface an error message
while leaving the input and the stored result unchanged, after exactly
one fetch call (no retry). -/
theorem claim8 (upstream : String → UpstreamResult)
    (transport : Nat → String → ClientFetchOutcome)
    (url : String) (s : AppState) (msg st body m : String) :
    (url ≠ "" → upstream url = UpstreamResult.netFail msg →
      fetchUrlRoute upstream (some url) = ⟨500, RouteBody.jsonError msg⟩) ∧
    (url ≠ "" → upstream url = UpstreamResult.resp false st body →
      fetchUrlRoute upstream (some url) =
        ⟨500, RouteBody.jsonError ("Failed to fetch URL: " ++ st)⟩) ∧
    (s.url ≠ "" → transport 0 s.url = ClientFetchOutcome.netFail m →
      (handleFetchUrl transport s).1.error = some m ∧
      (handleFetchUrl transport s).1.input = s.input ∧
      (handleFetchUrl transport s).1.result = s.result ∧
      (handleFetchUrl transport s).2 = 1) ∧
    (∀ ej t, s.url ≠ "" → transport 0 s.url = ClientFetchOutcome.resp false ej t →
      (∃ e, (handleFetchUrl transport s).1.error = some e) ∧
      (handleFetchUrl transport s).1.input = s.input ∧
      (handleFetchUrl transport s).1.result = s.result ∧
      (handleFetchUrl transport s).2 = 1) := by
  refine ⟨fun hu hup => ?_, fun hu hup => ?_, fun hu htr => ?_, fun ej t hu htr => ?_⟩
  · simp [fetchUrlRoute, hu, hup]
  · simp [fetchUrlRoute, hu, hup]
  · simp [handleFetchUrl, hu, htr]
  · cases ej with
    | error m2 => simp [handleFetchUrl, hu, htr]
    | ok field => simp [handleFetchUrl, hu, htr]

/-- C8 (witness): the route and the handler evaluated at a transport that
fails at the network level. -/
theorem claim8_w :
    demoUrlState.url ≠ "" ∧
    demoUpstreamFail "http://e" = UpstreamResult.netFail "net down" ∧
    fetchUrlRoute demoUpstreamFail (some "http://e") = ⟨500, RouteBody.jsonError "net down"⟩ ∧
    ((handleFetchUrl demoTransportFail demoUrlState).1.error = some "net down" ∧
      (handleFetchUrl demoTransportFail demoUrlState).1.input = demoUrlState.input ∧
      (handleFetchUrl demoTransportFail demoUrlState).1.result = demoUrlState.result ∧
      (handleFetchUrl demoTransportFail demoUrlState).2 = 1) := by
  refine ⟨by decide, rfl, ?_, ?_⟩
  · exact (claim8 demoUpstreamFail demoTransportFail "http://e" demoUrlState
      "net down" "" "" "net down").1 (by decide) rfl
  · exact (claim8 demoUpstreamFail demoTransportFail "http://e" demoUrlState
      "net down" "" "" "net down").2.2.1 (by decide) rfl

/-- C10: with an input whose trimmed form is empty, `handleConvert`
returns immediately: no external request is made (zero calls) and the
state — result, error, loading, everything — is unchanged. -/
theorem claim10 (parse : String → Except String Candidate)
    (ext : Nat → GenRequest → ExtBehavior) (s : AppState)
    (h : jsTrim s.input = "") :
    handleConvert parse ext s = (s, 0) := by
  simp [handleConvert, h]

/-- C10 (witness): the no-op theorem evaluated at a whitespace-only
input. -/
theorem claim10_w :
    jsTrim demoBlankState.input = "" ∧
    handleConvert demoParse demoExtNoText demoBlankState = (demoBlankState, 0) :=
  ⟨by decide, claim10 demoParse demoExtNoText demoBlankState (by decide)⟩

/-- The `y` positions on one rendered page: the `j`-th line sits at the
margin plus `j` times the fixed line height. -/
def pageYs (p : List PdfLine) : Prop :=
  p.map PdfLine.y = (List.range p.length).map (fun j => pdfMargin + pdfLineHeight * j)

theorem pageYs_nil : pageYs [] := by
  simp [pageYs]

theorem pageYs_snoc (p : List PdfLine) (e : PdfLine) (hp : pageYs p)
    (he : e.y = pdfMargin + pdfLineHeight * p.length) : pageYs (p ++ [e]) := by
  unfold pageYs at hp ⊢
  simp [List.range_succ, hp, he]

theorem pdfYstep (n : Nat) :
    pdfMargin + pdfLineHeight * n + pdfLineHeight = pdfMargin + pdfLineHeight * (n + 1) := by
  rw [Nat.mul_succ]
  omega

/-- A page break happens in the loop body exactly when the cursor exceeds
the fixed threshold `pageHeight - margin`. -/
theorem pdfPlace_newPage (done : List (List PdfLine)) (cur : List PdfLine)
    (y : Nat) (line : String) :
    (pdfPlace (done, cur, y) line).1 ≠ done ↔ y > pdfPageHeight - pdfMargin := by
  by_cases h : y > pdfPageHeight - pdfMargin
  · have hne : done ++ [cur] ≠ done := by
      intro heq
      have hlen := congrArg List.length heq
      simp at hlen
    simp [pdfPlace, h, hne]
  · simp [pdfPlace, h]

/-- Invariant of the pagination loop: starting from completed pages of 40
lines each, a current page of at most 40 lines whose positions follow the
fixed advance, and the cursor determined by the current page, the loop
preserves all of that and appends the processed lines, in order and
unchanged, to the rendered content. -/
theorem pdfFoldInv (lines : List String) :
    ∀ (done : List (List PdfLine)) (cur : List PdfLine) (y : Nat),
      y = pdfMargin + pdfLineHeight * cur.length →
      cur.length ≤ 40 →
      (∀ p ∈ done, p.length = 40 ∧ pageYs p) →
      pageYs cur →
      (∀ p ∈ (lines.foldl pdfPlace (done, cur, y)).1, p.length = 40 ∧ pageYs p) ∧
      (lines.foldl pdfPlace (done, cur, y)).2.1.length ≤ 40 ∧
      pageYs (lines.foldl pdfPlace (done, cur, y)).2.1 ∧
      ((lines.foldl pdfPlace (done, cur, y)).1.flatten ++
          (lines.foldl pdfPlace (done, cur, y)).2.1).map PdfLine.text
        = (done.flatten ++ cur).map PdfLine.text ++ lines := by
  induction lines with
  | nil =>
      intro done cur y hy hlen hdone hcur
      exact ⟨hdone, hlen, hcur, by simp⟩
  | cons line rest ih =>
      intro done cur y hy hlen hdone hcur
      subst hy
      by_cases hbr : pdfMargin + pdfLineHeight * cur.length > pdfPageHeight - pdfMargin
      · have hcl : cur.length = 40 := by
          simp only [pdfMargin, pdfLineHeight, pdfPageHeight] at hbr hlen
          omega
        have hstep : pdfPlace (done, cur, pdfMargin + pdfLineHeight * cur.length) line
            = (done ++ [cur], [⟨line, pdfMargin, pdfMargin⟩], pdfMargin + pdfLineHeight) := by
          simp [pdfPlace, hbr]
        have hdone' : ∀ p ∈ done ++ [cur], p.length = 40 ∧ pageYs p := by
          intro p hp
          rcases List.mem_append.mp hp with hp | hp
          · exact hdone p hp
          · rcases List.mem_singleton.mp hp with rfl
            exact ⟨hcl, hcur⟩
        have hcur' : pageYs [(⟨line, pdfMargin, pdfMargin⟩ : PdfLine)] := by
          have h0 := pageYs_snoc [] ⟨line, pdfMargin, pdfMargin⟩ pageYs_nil (by simp)
          simpa using h0
        have hrec := ih (done ++ [cur]) [⟨line, pdfMargin, pdfMargin⟩]
          (pdfMargin + pdfLineHeight) (by simp) (by simp) hdone' hcur'
        rw [List.foldl_cons, hstep]
        refine ⟨hrec.1, hrec.2.1, hrec.2.2.1, ?_⟩
        rw [hrec.2.2.2]
        simp [List.flatten_append, List.map_append, List.append_assoc]
      · have hlt : cur.length ≤ 39 := by
          simp only [pdfMargin, pdfLineHeight, pdfPageHeight] at hbr
          omega
        have hstep : pdfPlace (done, cur, pdfMargin + pdfLineHeight * cur.length) line
            = (done, cur ++ [⟨line, pdfMargin, pdfMargin + pdfLineHeight * cur.length⟩],
               pdfMargin + pdfLineHeight * cur.length + pdfLineHeight) := by
          simp [pdfPlace, hbr]
        have hy' : pdfMargin + pdfLineHeight * cur.length + pdfLineHeight
            = pdfMargin + pdfLineHeight *
                (cur ++ [(⟨line, pdfMargin, pdfMargin + pdfLineHeight * cur.length⟩ : PdfLine)]).length := by
          simp only [List.length_append, List.length_cons, List.length_nil]
          exact pdfYstep cur.length
        have hlen' :
            (cur ++ [(⟨line, pdfMargin, pdfMargin + pdfLineHeight * cur.length⟩ : PdfLine)]).length ≤ 40 := by
          simp only [List.length_append, List.length_cons, List.length_nil]
          omega
        have hcur' : pageYs
            (cur ++ [(⟨line, pdfMargin, pdfMargin + pdfLineHeight * cur.length⟩ : PdfLine)]) :=
          pageYs_snoc cur _ hcur rfl
        have hrec := ih done
          (cur ++ [⟨line, pdfMargin, pdfMargin + pdfLineHeight * cur.length⟩])
          (pdfMargin + pdfLineHeight * cur.length + pdfLineHeight) hy' hlen' hdone hcur'
        rw [List.foldl_cons, hstep]
        refine ⟨hrec.1, hrec.2.1, hrec.2.2.1, ?_⟩
        rw [hrec.2.2.2]
        simp [List.map_append, List.append_assoc]

/-- C6: with a stored result, `downloadPDF` paginates exactly the lines
produced by wrapping `convertedContent` at the fixed width `pageWidth -
margin * 2`; the rendered pages reproduce those lines in order and
unchanged (no math-aware processing); within each page the cursor
advances by the fixed line height per line; every completed page holds
exactly 40 lines, and a page break happens exactly when the cursor
exceeds the fixed threshold `pageHeight - margin` (40 lines exceed it, 39
do not). -/
theorem claim6 (split : String → Nat → List String) (s : AppState) (r : ConversionResult)
    (h : s.result = some r) :
    downloadPDF split s =
      some (renderPdfLines (split r.convertedContent (pdfPageWidth - pdfMargin * 2))) ∧
    (renderPdfLines (split r.convertedContent pdfMaxLineWidth)).flatten.map PdfLine.text
      = split r.convertedContent pdfMaxLineWidth ∧
    (∀ p ∈ renderPdfLines (split r.convertedContent pdfMaxLineWidth), pageYs p) ∧
    (∀ p ∈ (renderPdfLines (split r.convertedContent pdfMaxLineWidth)).dropLast,
      p.length = 40) ∧
    (∀ (done : List (List PdfLine)) (cur : List PdfLine) (y : Nat) (line : String),
      (pdfPlace (done, cur, y) line).1 ≠ done ↔ y > pdfPageHeight - pdfMargin) ∧
    pdfMargin + pdfLineHeight * 40 > pdfPageHeight - pdfMargin ∧
    pdfMargin + pdfLineHeight * 39 ≤ pdfPageHeight - pdfMargin := by
  have hinv := pdfFoldInv (split r.convertedContent pdfMaxLineWidth) [] [] pdfMargin
    (by simp) (by simp) (by simp) pageYs_nil
  refine ⟨?_, ?_, ?_, ?_, pdfPlace_newPage, by decide, by decide⟩
  · simp [downloadPDF, h, pdfMaxLineWidth]
  · have hc := hinv.2.2.2
    simp only [List.flatten_nil, List.nil_append, List.map_nil] at hc
    simp only [renderPdfLines, List.flatten_append, List.map_append]
    simp only [List.flatten] at hc ⊢
    simpa using hc
  · intro p hp
    simp only [renderPdfLines] at hp
    rcases List.mem_append.mp hp with hp | hp
    · exact (hinv.1 p hp).2
    · rcases List.mem_singleton.mp hp with rfl
      exact hinv.2.2.1
  · intro p hp
    simp only [renderPdfLines, List.dropLast_concat] at hp
    exact (hinv.1 p hp).1

/-- C6 (witness): the pagination theorem evaluated at a concrete wrapping
function and stored result. -/
theorem claim6_w :
    demoResultState.result = some demoConvResult ∧
    downloadPDF demoSplit demoResultState =
      some (renderPdfLines
        (demoSplit demoConvResult.convertedContent (pdfPageWidth - pdfMargin * 2))) :=
  ⟨rfl, (claim6 demoSplit demoResultState demoConvResult rfl).1⟩

/-- C9 (counterexample): a successful conversion whose `convertedContent`
still contains the dollar-sign delimiter syntax: the external capability
answers with a schema-conforming JSON object whose content is `$x$`, and
`convertToPressbooks` returns it unchanged — nothing in the code checks
for forbidden delimiters. -/
theorem claim9_counter :
    (convertToPressbooks demoParse demoExtDollar "doc").1 =
      ConvOutcome.ok ⟨"$x$", "done", none⟩ ∧
    strOccurs "$x$" "$x$" = true ∧
    strOccurs "$" "$x$" = true :=
  ⟨by decide, by decide, by decide⟩

set_option maxRecDepth 40000

/-- C9 (amended): the instruction payload sent with every
request contains the rule forbidding the source delimiter syntaxes, but
the orchestrator performs no enforcement: whatever non-empty
`convertedContent` the capability returns in a parseable response is
passed through verbatim, so the zero-occurrence invariant holds only if
the external capability complies. -/
theorem claim9_amended (parse : String → Except String Candidate)
    (ext : Nat → GenRequest → ExtBehavior) (input t : String) (c : Candidate) (s : String) :
    strOccurs FORBIDDEN_RULE (buildRequest input).systemInstruction = true ∧
    (ext 0 (buildRequest input) = ExtBehavior.responds (some t) → t ≠ "" →
      parse t = Except.ok c → c.convertedContent = some s → s ≠ "" →
      (convertToPressbooks parse ext input).1 =
        ConvOutcome.ok ⟨s, jsOrElse c.summary "", c.errors⟩) := by
  constructor
  · show strOccurs FORBIDDEN_RULE (SYSTEM_INSTRUCTION ++ ERROR_REPORTING_ADDENDUM) = true
    decide
  · intro hext ht hp hcc hs
    simp [convertToPressbooks, hext, jsOrElse, ht, hp, coerceResult, hcc, hs]

/-- C9 (witness): the amended theorem evaluated at the dollar-sign
response. -/
theorem claim9_w :
    strOccurs FORBIDDEN_RULE (buildRequest "doc").systemInstruction = true ∧
    (convertToPressbooks demoParse demoExtDollar "doc").1 =
      ConvOutcome.ok ⟨"$x$", "done", none⟩ :=
  ⟨(claim9_amended demoParse demoExtDollar "doc"
      "\x7b\x22convertedContent\x22:\x22$x$\x22,\x22summary\x22:\x22done\x22\x7d"
      ⟨some "$x$", some "done", none⟩ "$x$").1,
    (claim9_amended demoParse demoExtDollar "doc"
      "\x7b\x22convertedContent\x22:\x22$x$\x22,\x22summary\x22:\x22done\x22\x7d"
      ⟨some "$x$", some "done", none⟩ "$x$").2 rfl (by decide) rfl rfl (by decide)⟩

end Pressbooks
